import Mathlib

/-!
Verification of the scrape-site repository (scrape_site.py, crawl4ai_scraper.py,
openai_scraper.py) against its natural-language specification.

Python strings are modelled as `List Char` (Python strings are sequences of code
points, and all indexing in the sources is by code point).  Python dictionaries
built by the scripts are modelled as association lists in insertion order.
-/

/-- Characters removed by Python `str.strip()` (the ASCII whitespace class). -/
def isPySpace (c : Char) : Bool :=
  c = ' ' || c = '\t' || c = '\n' || c = '\r' || c = '\x0b' || c = '\x0c'

/-- Python `str.strip()`: drop leading and trailing whitespace. -/
def pyStrip (t : List Char) : List Char :=
  ((t.dropWhile isPySpace).reverse.dropWhile isPySpace).reverse

/-- Whether `pat` occurs at the very start of `rest` (helper for substring search). -/
def strMatch : List Char → List Char → Bool
  | [], _ => true
  | _ :: _, [] => false
  | c :: cs, d :: ds => c == d && strMatch cs ds

/-- Scan positions `i, i+1, ...` (at most `fuel` of them) for an occurrence of `pat`. -/
def findAux (t pat : List Char) : Nat → Nat → Option Nat
  | 0, _ => none
  | fuel + 1, i => if strMatch pat (t.drop i) then some i else findAux t pat fuel (i + 1)

/-- Python `t.find(pat, start)`: index of the first occurrence of `pat` at or after
`start`, or `-1` when there is none. -/
def pyFind (t pat : List Char) (start : Nat) : Int :=
  match findAux t pat (t.length + 1 - start) start with
  | some i => (i : Int)
  | none => -1

/-- Python `pat in t` (substring containment). -/
def hasSub (t pat : List Char) : Bool :=
  decide (0 ≤ pyFind t pat 0)

/-- The raw section slice of the repeated per-marker block in `scrape_sokudan_job`
(scrape_site.py lines 103-133) and `scrape_sokudan_with_crawl4ai`
(crawl4ai_scraper.py lines 91-109), before `strip`:
`details_text[start : end]` where `start = details_text.find(marker)` and
`end = details_text.find(chr(0x3010), start + 1)` when that find is `> 0`,
otherwise `len(details_text)`. -/
def rawSectionSlice (t marker : List Char) : List Char :=
  let s := (pyFind t marker 0).toNat
  let j := pyFind t ['【'] (s + 1)
  let e := if 0 < j then j.toNat else t.length
  (t.drop s).take (e - s)

/-- The section text actually stored by both splitters: the raw slice with
surrounding whitespace stripped (`details_text[start:end].strip()`). -/
def sectionSlice (t marker : List Char) : List Char :=
  pyStrip (rawSectionSlice t marker)

/-- Marker `【必須条件】` (required conditions). -/
def mRequired : List Char := "【必須条件】".data

/-- Marker `【歓迎条件】` (preferred conditions). -/
def mPreferred : List Char := "【歓迎条件】".data

/-- Marker `【想定報酬】` (expected salary). -/
def mExpectedSalary : List Char := "【想定報酬】".data

/-- Marker `【勤務条件】` (work conditions). -/
def mWorkConditions : List Char := "【勤務条件】".data

/-- Marker `【募集背景】` (recruitment background). -/
def mBackground : List Char := "【募集背景】".data

/-- Marker `【業務内容詳細】` (job detail). -/
def mJobDetails : List Char := "【業務内容詳細】".data

/-- The conditions mapping built by `scrape_sokudan_job` (scrape_site.py lines
99-135): six independent marker blocks, executed in this order, each adding an
entry when its marker occurs in the details text. -/
def conditions_scrape_site (detailsText : List Char) : List (String × List Char) :=
  (if hasSub detailsText mRequired then
    [("required", sectionSlice detailsText mRequired)] else []) ++
  ((if hasSub detailsText mPreferred then
    [("preferred", sectionSlice detailsText mPreferred)] else []) ++
  ((if hasSub detailsText mExpectedSalary then
    [("expected_salary", sectionSlice detailsText mExpectedSalary)] else []) ++
  ((if hasSub detailsText mWorkConditions then
    [("work_conditions", sectionSlice detailsText mWorkConditions)] else []) ++
  ((if hasSub detailsText mBackground then
    [("background", sectionSlice detailsText mBackground)] else []) ++
  (if hasSub detailsText mJobDetails then
    [("job_details", sectionSlice detailsText mJobDetails)] else [])))))

/-- The conditions mapping built by `scrape_sokudan_with_crawl4ai`
(crawl4ai_scraper.py lines 87-111): the same per-marker blocks, but only for the
first four markers (there is no `【募集背景】` and no `【業務内容詳細】` block). -/
def conditions_crawl4ai (details : List Char) : List (String × List Char) :=
  (if hasSub details mRequired then
    [("required", sectionSlice details mRequired)] else []) ++
  ((if hasSub details mPreferred then
    [("preferred", sectionSlice details mPreferred)] else []) ++
  ((if hasSub details mExpectedSalary then
    [("expected_salary", sectionSlice details mExpectedSalary)] else []) ++
  (if hasSub details mWorkConditions then
    [("work_conditions", sectionSlice details mWorkConditions)] else [])))

/-- The ordered marker list of the scrape_site.py splitter. -/
def sokudanMarkers : List (String × List Char) :=
  [("required", mRequired), ("preferred", mPreferred),
   ("expected_salary", mExpectedSalary), ("work_conditions", mWorkConditions),
   ("background", mBackground), ("job_details", mJobDetails)]

/-- The ordered marker list of the crawl4ai_scraper.py splitter. -/
def crawl4aiMarkers : List (String × List Char) :=
  [("required", mRequired), ("preferred", mPreferred),
   ("expected_salary", mExpectedSalary), ("work_conditions", mWorkConditions)]

/-- The per-marker splitting scheme common to both files, parameterised by the
marker list: one block per configured marker, in list order. -/
def splitSections (markers : List (String × List Char)) (t : List Char) :
    List (String × List Char) :=
  markers.foldr
    (fun p acc => (if hasSub t p.2 then [(p.1, sectionSlice t p.2)] else []) ++ acc) []

/-- C1 counterexample: the claim says the entry's text is the raw substring from the
marker to the next 【 (or end of string), but both splitters apply `strip` to the
slice.  On the details string `"【必須条件】A "` (trailing space) the raw substring
keeps the trailing space while the produced entry does not, so the entry stated by
the claim is not among the splitter's output. -/
theorem C1_counterexample :
    conditions_scrape_site "【必須条件】A ".data = [("required", "【必須条件】A".data)]
    ∧ rawSectionSlice "【必須条件】A ".data mRequired = "【必須条件】A ".data
    ∧ ("required", rawSectionSlice "【必須条件】A ".data mRequired) ∉
        conditions_scrape_site "【必須条件】A ".data := by
  refine ⟨by decide, by decide, by decide⟩

/-- C1 (amended): for every details string and every configured marker present in
it, each splitter produces an entry whose text is the substring from the marker's
first occurrence up to the next 【 character after start(marker)+1 (to end of
string when there is none), with surrounding whitespace stripped; in particular
the schematic two-marker example splits exactly as {required: 【required】A,
preferred: 【preferred】B}. -/
theorem C1_section_bounds (t : List Char) (k : String) (m : List Char)
    (hmem : (k, m) ∈ sokudanMarkers) (hhas : hasSub t m = true) :
    ((k, pyStrip (rawSectionSlice t m)) ∈ conditions_scrape_site t)
    ∧ (∀ k2 m2, (k2, m2) ∈ crawl4aiMarkers → hasSub t m2 = true →
        (k2, pyStrip (rawSectionSlice t m2)) ∈ conditions_crawl4ai t)
    ∧ splitSections
        [("required", "【required】".data), ("preferred", "【preferred】".data)]
        "【required】A【preferred】B".data
      = [("required", "【required】A".data), ("preferred", "【preferred】B".data)] := by
  refine ⟨?_, ?_, by decide⟩
  · simp only [sokudanMarkers, List.mem_cons, List.not_mem_nil, or_false] at hmem
    rcases hmem with h | h | h | h | h | h <;>
      (injection h with h1 h2; subst h1; subst h2;
       simp [conditions_scrape_site, hhas, sectionSlice])
  · intro k2 m2 hmem2 hhas2
    simp only [crawl4aiMarkers, List.mem_cons, List.not_mem_nil, or_false] at hmem2
    rcases hmem2 with h | h | h | h <;>
      (injection h with h1 h2; subst h1; subst h2;
       simp [conditions_crawl4ai, hhas2, sectionSlice])

/-- C1 witness: the amended theorem applied to the details string
`"【必須条件】5年【歓迎条件】Python"` and the marker `【必須条件】`. -/
theorem C1_witness :
    (("required" : String),
      pyStrip (rawSectionSlice "【必須条件】5年【歓迎条件】Python".data mRequired)) ∈
        conditions_scrape_site "【必須条件】5年【歓迎条件】Python".data := by
  exact (C1_section_bounds "【必須条件】5年【歓迎条件】Python".data "required" mRequired
    (by decide) (by decide)).1

/-- C8: a details string containing none of the six configured markers yields an
empty conditions mapping from both splitters. -/
theorem C8_no_markers_empty (t : List Char)
    (h1 : hasSub t mRequired = false) (h2 : hasSub t mPreferred = false)
    (h3 : hasSub t mExpectedSalary = false) (h4 : hasSub t mWorkConditions = false)
    (h5 : hasSub t mBackground = false) (h6 : hasSub t mJobDetails = false) :
    conditions_scrape_site t = [] ∧ conditions_crawl4ai t = [] := by
  constructor <;>
    simp [conditions_scrape_site, conditions_crawl4ai, h1, h2, h3, h4, h5, h6]

/-- C8 witness: the theorem applied to a concrete marker-free details string. -/
theorem C8_witness :
    conditions_scrape_site "no markers in this text".data = []
    ∧ conditions_crawl4ai "no markers in this text".data = [] :=
  C8_no_markers_empty "no markers in this text".data (by decide) (by decide)
    (by decide) (by decide) (by decide) (by decide)

/-- C9 counterexample: the two section splitters are not equivalent.  On a details
string containing only `【募集背景】`, scrape_site.py produces a background entry
while crawl4ai_scraper.py (which has no block for that marker) produces nothing. -/
theorem C9_counterexample :
    conditions_scrape_site "【募集背景】X".data = [("background", "【募集背景】X".data)]
    ∧ conditions_crawl4ai "【募集背景】X".data = []
    ∧ conditions_scrape_site "【募集背景】X".data ≠
        conditions_crawl4ai "【募集背景】X".data := by
  refine ⟨by decide, by decide, by decide⟩

/-- C9 (amended): the two splitters agree on every details text that contains
neither `【募集背景】` nor `【業務内容詳細】`, the two markers present only in
scrape_site.py; on other inputs scrape_site.py adds exactly those extra entries. -/
theorem C9_agree_without_extra_markers (t : List Char)
    (hB : hasSub t mBackground = false) (hJ : hasSub t mJobDetails = false) :
    conditions_scrape_site t = conditions_crawl4ai t := by
  simp [conditions_scrape_site, conditions_crawl4ai, hB, hJ]

/-- C9 witness: the amended theorem applied to a details text using only the four
shared markers. -/
theorem C9_witness :
    conditions_scrape_site "【必須条件】A【歓迎条件】B".data =
      conditions_crawl4ai "【必須条件】A【歓迎条件】B".data :=
  C9_agree_without_extra_markers "【必須条件】A【歓迎条件】B".data (by decide) (by decide)

/-- The area field normalization in scrape_sokudan_job (scrape_site.py line 84):
`area_value.text.strip().replace` of the newline character by a space; replacing a
one-character pattern by a one-character replacement is a character-wise
substitution. -/
def normalizeArea (t : List Char) : List Char :=
  (pyStrip t).map (fun c => if c = '\n' then ' ' else c)

/-- The normalization applied to the other single-string fields of
scrape_sokudan_job (title, required_hours, salary, details): `strip` only. -/
def normalizeSimpleField (t : List Char) : List Char :=
  pyStrip t

/-- C10: the area field never contains a newline (every newline surviving the trim
is replaced by a space), while the other single-string fields are only trimmed and
so can retain interior newlines. -/
theorem C10_area_no_newline (t : List Char) :
    '\n' ∉ normalizeArea t
    ∧ normalizeSimpleField "a\nb".data = "a\nb".data := by
  constructor
  · intro h
    rcases List.mem_map.mp h with ⟨c, _, hc⟩
    by_cases hcn : c = '\n'
    · rw [if_pos hcn] at hc
      exact absurd hc (by decide)
    · rw [if_neg hcn] at hc
      exact hcn hc
  · decide

/-- C10 witness: the theorem applied to a concrete area text containing a newline. -/
theorem C10_witness : '\n' ∉ normalizeArea " 東京\nリモート ".data :=
  (C10_area_no_newline " 東京\nリモート ".data).1

/-- The multiple=true extraction pattern of scrape_site.py (lines 62, 90, 141):
each matched element is mapped to its stripped text and only the non-empty
results are kept, in document order. -/
def extractMultiple (texts : List (List Char)) : List (List Char) :=
  (texts.map pyStrip).filter (fun s => !s.isEmpty)

/-- A non-empty result of dropping leading whitespace starts with, and hence
contains, a non-whitespace character. -/
theorem dropWhile_space_has_solid (l : List Char)
    (h : l.dropWhile isPySpace ≠ []) :
    ∃ c ∈ l.dropWhile isPySpace, isPySpace c = false := by
  induction l with
  | nil => simp at h
  | cons a t ih =>
    rw [List.dropWhile_cons] at h ⊢
    by_cases ha : isPySpace a = true
    · simp only [ha, if_true] at h ⊢
      exact ih h
    · simp only [ha, if_false]
      exact ⟨a, List.mem_cons_self a _, by simpa using ha⟩

/-- C7: for every multiple=true field, the extracted sequence contains no empty
and no whitespace-only value, and it is a sublist of the element-wise trimmed
input, that is, the surviving values keep their document order. -/
theorem C7_multiple_no_blanks (texts : List (List Char)) :
    (∀ s ∈ extractMultiple texts, s ≠ [] ∧ ∃ c ∈ s, isPySpace c = false)
    ∧ List.Sublist (extractMultiple texts) (texts.map pyStrip) := by
  constructor
  · intro s hs
    have hmem := List.mem_filter.mp hs
    have hne : s ≠ [] := by
      intro hnil
      rw [hnil] at hmem
      simp at hmem
    refine ⟨hne, ?_⟩
    rcases List.mem_map.mp hmem.1 with ⟨x, _, rfl⟩
    rw [pyStrip] at hne ⊢
    have hinner : (x.dropWhile isPySpace).reverse.dropWhile isPySpace ≠ [] := by
      intro hn
      exact hne (by rw [hn]; rfl)
    rcases dropWhile_space_has_solid ((x.dropWhile isPySpace).reverse) hinner with
      ⟨c, hc1, hc2⟩
    exact ⟨c, List.mem_reverse.mpr hc1, hc2⟩
  · exact List.filter_sublist _

/-- C7 witness: the theorem applied to a concrete element list with a
whitespace-only entry. -/
theorem C7_witness :
    (∀ s ∈ extractMultiple ["  skill  ".data, "   ".data, "Go".data],
      s ≠ [] ∧ ∃ c ∈ s, isPySpace c = false)
    ∧ List.Sublist (extractMultiple ["  skill  ".data, "   ".data, "Go".data])
        (["  skill  ".data, "   ".data, "Go".data].map pyStrip) :=
  C7_multiple_no_blanks ["  skill  ".data, "   ".data, "Go".data]

/-- Maximum character budget applied to the page text sent to the completion
endpoint (openai_scraper.py line 144, applied as a character slice). -/
def openaiMaxChars : Nat := 16000

/-- The page text parse_with_openai embeds in the user prompt (openai_scraper.py
lines 144-150): the html_content argument cut to 16000 characters when longer.
scrape_url_with_openai (lines 184-192) passes the fetched HTML to parse_with_openai
unmodified; extract_main_content (lines 55-78) is defined but never called, so the
text sent is raw HTML, not a cleaned plain-text rendering of the page. -/
def openai_sent_page_text (htmlContent : List Char) : List Char :=
  if openaiMaxChars < htmlContent.length then htmlContent.take openaiMaxChars
  else htmlContent

/-- C2 counterexample: the text sent to the completion endpoint is not a
plain-text rendering with script tags stripped; for a page whose HTML contains a
script element, the sent text is the raw HTML itself and still contains the
script markup. -/
theorem C2_counterexample :
    openai_sent_page_text "<html><script>bad()</script><p>hi</p></html>".data
      = "<html><script>bad()</script><p>hi</p></html>".data
    ∧ hasSub
        (openai_sent_page_text "<html><script>bad()</script><p>hi</p></html>".data)
        "<script>".data = true := by
  refine ⟨by decide, by decide⟩

/-- C2 (amended): the text sent to the completion endpoint is the raw fetched HTML
cut to a fixed budget of 16000 characters at a hard character boundary (the
main-content cleaner exists in the file but is not invoked on this path). -/
theorem C2_truncation (html : List Char) :
    openai_sent_page_text html = html.take openaiMaxChars
    ∧ (openai_sent_page_text html).length ≤ openaiMaxChars := by
  have h1 : openai_sent_page_text html = html.take openaiMaxChars := by
    rw [openai_sent_page_text]
    by_cases h : openaiMaxChars < html.length
    · rw [if_pos h]
    · rw [if_neg h]
      exact (List.take_of_length_le (Nat.le_of_not_lt h)).symm
  refine ⟨h1, ?_⟩
  rw [h1, List.length_take]
  exact Nat.min_le_left _ _

/-- Outcome of the single HTTP GET issued by the fetchers: either a transport
error raised by the requests library, or a response with a status code and a
body. -/
inductive HttpOutcome where
  | transportError (msg : String)
  | response (status : Nat) (body : List Char)

/-- The raise_for_status check of the requests library: an HTTPError is raised
exactly for status codes 400-599; informational and redirect codes pass. -/
def raiseForStatus (status : Nat) : Bool :=
  decide (400 ≤ status ∧ status < 600)

/-- The fetch step shared by the scripts: requests.get followed by
raise_for_status inside try/except; an error value models the except branch being
taken (where the message is printed). -/
def requestsFetch (o : HttpOutcome) : Except String (List Char) :=
  match o with
  | .transportError msg => Except.error msg
  | .response s body =>
      if raiseForStatus s then Except.error ("HTTP error " ++ toString s)
      else Except.ok body

/-- fetch_html (openai_scraper.py lines 33-53): the body text on success, the
empty string after printing the error otherwise. -/
def fetch_html (o : HttpOutcome) : List Char :=
  match requestsFetch o with
  | Except.ok body => body
  | Except.error _ => []

/-- Result dictionaries, modelled as association lists in insertion order. -/
abbrev PyDict := List (String × String)

/-- scrape_sokudan_job and scrape_generic_site seen at the fetch boundary
(scrape_site.py lines 31-36 and 168-173): on a fetch exception the function
prints and returns the empty dictionary; otherwise it returns whatever the
selector stage extracts from the body (`extracted`). -/
def scrape_sokudan_job_result (o : HttpOutcome) (extracted : PyDict) : PyDict :=
  match requestsFetch o with
  | Except.error _ => []
  | Except.ok _ => extracted

/-- get_api_key (openai_scraper.py lines 21-31): raises ValueError when the
environment variable is unset or empty.  The environment is modelled as an
optional string and the raise as an error value. -/
def get_api_key (env : Option String) : Except String String :=
  match env with
  | none => Except.error "環境変数 OPENAI_API_KEY が設定されていません"
  | some k =>
      if k = "" then Except.error "環境変数 OPENAI_API_KEY が設定されていません"
      else Except.ok k

/-- parse_with_openai (openai_scraper.py lines 80-172).  The completion call plus
JSON parse is modelled by `llm`: `some record` for a well-formed JSON reply, and
`none` for any transport error or malformed JSON, in which case the except branch
prints and returns the error-tagged dictionary.  get_api_key is called before the
try block, so its ValueError propagates out as an exception. -/
def parse_with_openai (env : Option String) (llm : Option PyDict) (url : String) :
    Except String PyDict :=
  match get_api_key env with
  | Except.error e => Except.error e
  | Except.ok _ =>
      match llm with
      | some record => Except.ok (record ++ [("url", url)])
      | none => Except.ok [("error", "OpenAI API failure"), ("url", url)]

/-- scrape_url_with_openai (openai_scraper.py lines 174-194): fetch, return the
empty dictionary when the fetched HTML is empty, otherwise delegate to
parse_with_openai; uncaught exceptions pass through. -/
def scrape_url_with_openai (env : Option String) (o : HttpOutcome)
    (llm : Option PyDict) (url : String) : Except String PyDict :=
  let html := fetch_html o
  if html.isEmpty then Except.ok []
  else parse_with_openai env llm url

/-- The exit logic shared by the three main functions: sys.exit(1) when the
result dictionary is empty, otherwise the JSON is written and the process ends
with exit code 0. -/
def cli_exit_code (result : PyDict) : Nat :=
  if result.isEmpty then 1 else 0

/-- The exit code of the openai_scraper.py CLI: an uncaught exception terminates
the interpreter with exit code 1, otherwise the shared empty-result check
applies. -/
def openai_main_exit (env : Option String) (o : HttpOutcome) (llm : Option PyDict)
    (url : String) : Nat :=
  match scrape_url_with_openai env o llm url with
  | Except.error _ => 1
  | Except.ok r => cli_exit_code r

/-- C3 counterexample: a transport or malformed-JSON failure on the LLM path does
not exit with code 1.  With a valid key and a successful fetch, a failing
completion call yields the non-empty error-tagged dictionary, so the CLI writes
that JSON and exits with code 0. -/
theorem C3_counterexample :
    scrape_url_with_openai (some "sk-key") (HttpOutcome.response 200 "<html>".data)
        none "http://x"
      = Except.ok [("error", "OpenAI API failure"), ("url", "http://x")]
    ∧ openai_main_exit (some "sk-key") (HttpOutcome.response 200 "<html>".data)
        none "http://x" = 0 := by
  refine ⟨rfl, rfl⟩

/-- C3 (amended): the CLI exits with code 1 on fetch failure (the result is the
empty dictionary), and exits with code 0 whenever the fetch succeeded on the LLM
path, even when extraction failed, because the error-tagged dictionary is
non-empty; in general the exit code is 1 exactly for an empty result. -/
theorem C3_exit_codes (env : Option String) (k : String) (llm : Option PyDict)
    (url msg : String) (body : List Char)
    (henv : env = some k) (hk : k ≠ "") (hbody : body ≠ []) :
    openai_main_exit env (HttpOutcome.transportError msg) llm url = 1
    ∧ openai_main_exit env (HttpOutcome.response 200 body) llm url = 0
    ∧ cli_exit_code [] = 1
    ∧ (∀ r : PyDict, r ≠ [] → cli_exit_code r = 0) := by
  subst henv
  refine ⟨rfl, ?_, rfl, ?_⟩
  · have hb : body.isEmpty = false := by
      cases body with
      | nil => exact absurd rfl hbody
      | cons a t => rfl
    cases llm <;>
      simp [openai_main_exit, scrape_url_with_openai, fetch_html, requestsFetch,
        raiseForStatus, parse_with_openai, get_api_key, cli_exit_code, hk, hb]
  · intro r hr
    cases r with
    | nil => exact absurd rfl hr
    | cons a t => rfl

/-- C3 witness: the amended theorem applied to a valid key, a concrete body and a
failing completion call. -/
theorem C3_witness :
    openai_main_exit (some "sk-key") (HttpOutcome.transportError "timeout") none
        "http://x" = 1
    ∧ openai_main_exit (some "sk-key") (HttpOutcome.response 200 "<html>".data) none
        "http://x" = 0
    ∧ cli_exit_code [] = 1
    ∧ (∀ r : PyDict, r ≠ [] → cli_exit_code r = 0) :=
  C3_exit_codes (some "sk-key") "sk-key" none "http://x" "timeout" "<html>".data
    rfl (by decide) (by decide)

/-- C4 counterexample: the missing-credential configuration error is not handled
inside the library functions.  get_api_key raises before the try block of
parse_with_openai, so with an unset environment variable the exception propagates
out of scrape_url_with_openai instead of producing an empty or error-tagged
result. -/
theorem C4_counterexample :
    scrape_url_with_openai none (HttpOutcome.response 200 "<html>".data) none
        "http://x"
      = Except.error "環境変数 OPENAI_API_KEY が設定されていません" := by
  rfl

/-- C4 (amended): fetch failures are handled by returning an empty string and
LLM-path parse failures by returning the error-tagged dictionary, with no
exception; but the missing-credential ValueError raised by get_api_key propagates
uncaught out of parse_with_openai for every completion outcome. -/
theorem C4_error_taxonomy (msg url k : String) (hk : k ≠ "") :
    fetch_html (HttpOutcome.transportError msg) = []
    ∧ parse_with_openai (some k) none url
        = Except.ok [("error", "OpenAI API failure"), ("url", url)]
    ∧ (∀ llm, parse_with_openai none llm url
        = Except.error "環境変数 OPENAI_API_KEY が設定されていません")
    ∧ (∀ llm, scrape_url_with_openai none (HttpOutcome.response 200 "<p>x</p>".data)
        llm url = Except.error "環境変数 OPENAI_API_KEY が設定されていません") := by
  refine ⟨rfl, ?_, fun llm => rfl, fun llm => rfl⟩
  simp [parse_with_openai, get_api_key, hk]

/-- C4 witness: the amended theorem applied to a concrete key and URL. -/
theorem C4_witness :
    fetch_html (HttpOutcome.transportError "timeout") = []
    ∧ parse_with_openai (some "sk-key") none "http://x"
        = Except.ok [("error", "OpenAI API failure"), ("url", "http://x")]
    ∧ (∀ llm, parse_with_openai none llm "http://x"
        = Except.error "環境変数 OPENAI_API_KEY が設定されていません")
    ∧ (∀ llm, scrape_url_with_openai none (HttpOutcome.response 200 "<p>x</p>".data)
        llm "http://x" = Except.error "環境変数 OPENAI_API_KEY が設定されていません") :=
  C4_error_taxonomy "timeout" "http://x" "sk-key" (by decide)

/-- C6 counterexample: a non-2xx status does not always cause a fetch failure.
raise_for_status only raises for 400-599, so a 304 response is treated as a
success and the caller returns the extracted dictionary, not the empty one. -/
theorem C6_counterexample :
    scrape_sokudan_job_result (HttpOutcome.response 304 "body".data)
        [("title", "t")] = [("title", "t")]
    ∧ ¬ (200 ≤ 304 ∧ 304 < 300) := by
  refine ⟨rfl, by decide⟩

/-- C6 (amended): a transport error or a status in 400-599 causes the fetcher to
take the except branch (printing the failure) and the caller to return the empty
dictionary, with no retry; a status outside 400-599 is treated as success. -/
theorem C6_fetch_failure (msg : String) (s : Nat) (b : List Char)
    (extracted : PyDict) :
    scrape_sokudan_job_result (HttpOutcome.transportError msg) extracted = []
    ∧ (400 ≤ s → s < 600 →
        scrape_sokudan_job_result (HttpOutcome.response s b) extracted = [])
    ∧ (s < 400 ∨ 600 ≤ s →
        scrape_sokudan_job_result (HttpOutcome.response s b) extracted
          = extracted) := by
  refine ⟨rfl, ?_, ?_⟩
  · intro h1 h2
    simp [scrape_sokudan_job_result, requestsFetch, raiseForStatus, h1, h2]
  · intro h
    have hns : ¬ (400 ≤ s ∧ s < 600) := by omega
    simp [scrape_sokudan_job_result, requestsFetch, raiseForStatus, hns]

/-- C6 witness: the amended theorem applied to a transport error and to a 500
response. -/
theorem C6_witness :
    scrape_sokudan_job_result (HttpOutcome.transportError "boom") [("title", "t")]
        = []
    ∧ scrape_sokudan_job_result (HttpOutcome.response 500 "x".data) [("title", "t")]
        = [] :=
  ⟨(C6_fetch_failure "boom" 500 "x".data [("title", "t")]).1,
   (C6_fetch_failure "boom" 500 "x".data [("title", "t")]).2.1 (by decide) (by decide)⟩

/-- A page's headings, modelled as the document-ordered list of
(level, raw text) pairs; `soup.find_all` on a level-i heading tag returns the
texts of that level in document order. -/
def findAllLevel (doc : List (Nat × List Char)) (i : Nat) : List (List Char) :=
  (doc.filter (fun p => p.1 == i)).map Prod.snd

/-- The heading levels walked by scrape_generic_site (scrape_site.py line 199,
`range(1, 7)`). -/
def headingLevels : List Nat := [1, 2, 3, 4, 5, 6]

/-- scrape_generic_site heading collection (scrape_site.py lines 198-205): for
each level 1..6 in turn, one (level, stripped text) record is appended per
matching element. -/
def headings_scrape_site (doc : List (Nat × List Char)) : List (Nat × List Char) :=
  (headingLevels.map (fun i =>
    (findAllLevel doc i).map (fun t => (i, pyStrip t)))).flatten

/-- scrape_generic_with_crawl4ai heading reshaping (crawl4ai_scraper.py lines
189-197): the h1, h2 and h3 sequences delivered by the extractor are appended in
that order; the schema (lines 139-173) defines no selector for h4, h5 or h6. -/
def headings_crawl4ai (h1s h2s h3s : List (List Char)) : List (Nat × List Char) :=
  h1s.map (fun t => (1, t)) ++
    (h2s.map (fun t => (2, t)) ++ h3s.map (fun t => (3, t)))

/-- Modelled from the spec: the multiple=true text extraction of the external
crawl4ai HTMLExtractor library (not part of this repository) delivers, per spec
section 4.2, the trimmed text of each element matching the selector with empty
and whitespace-only results discarded and document order preserved — the same
contract as extractMultiple.  Applied to the h1/h2/h3 selectors of the generic
schema and reshaped by headings_crawl4ai. -/
def headings_crawl4ai_page (doc : List (Nat × List Char)) : List (Nat × List Char) :=
  headings_crawl4ai (extractMultiple (findAllLevel doc 1))
    (extractMultiple (findAllLevel doc 2)) (extractMultiple (findAllLevel doc 3))

/-- Every record of a stripped level block carries that block's level. -/
theorem fst_of_mem_levelBlock {doc : List (Nat × List Char)} {i : Nat}
    {p : Nat × List Char}
    (hp : p ∈ (findAllLevel doc i).map (fun t => (i, pyStrip t))) : p.1 = i := by
  rcases List.mem_map.mp hp with ⟨t, _, rfl⟩
  rfl

/-- Every record of a constant-level block carries that block's level. -/
theorem fst_of_mem_constBlock {l : List (List Char)} {n : Nat} {p : Nat × List Char}
    (hp : p ∈ l.map (fun t => (n, t))) : p.1 = n := by
  rcases List.mem_map.mp hp with ⟨t, _, rfl⟩
  rfl

/-- A stripped level block is level-sorted, trivially, as all levels are equal. -/
theorem pairwise_levelBlock (doc : List (Nat × List Char)) (i : Nat) :
    ((findAllLevel doc i).map (fun t => (i, pyStrip t))).Pairwise
      (fun a b => a.1 ≤ b.1) := by
  rw [List.pairwise_map]
  induction findAllLevel doc i with
  | nil => exact List.Pairwise.nil
  | cons a s ih => exact List.Pairwise.cons (fun x _ => Nat.le_refl i) ih

/-- A constant-level block is level-sorted, trivially, as all levels are equal. -/
theorem pairwise_constBlock (l : List (List Char)) (n : Nat) :
    (l.map (fun t => ((n, t) : Nat × List Char))).Pairwise
      (fun a b => a.1 ≤ b.1) := by
  rw [List.pairwise_map]
  induction l with
  | nil => exact List.Pairwise.nil
  | cons a s ih => exact List.Pairwise.cons (fun x _ => Nat.le_refl n) ih

/-- C5 counterexample: not all six heading levels are collected by both
extractors.  On a page whose only heading is an h4, the rule-based extractor
returns the level-4 record but the crawl4ai extractor, whose schema stops at h3,
returns nothing. -/
theorem C5_counterexample :
    headings_scrape_site [(4, "X".data)] = [(4, "X".data)]
    ∧ headings_crawl4ai_page [(4, "X".data)] = []
    ∧ (4, "X".data) ∉ headings_crawl4ai_page [(4, "X".data)] := by
  refine ⟨by decide, by decide, by decide⟩

/-- C5 (amended): both extractors merge the per-level heading sequences in
ascending level order (every lower-level heading before every higher-level one,
not document order); the rule-based extractor collects all six levels, while the
crawl4ai extractor collects exactly levels 1 to 3. -/
theorem C5_headings_order (doc : List (Nat × List Char)) :
    (headings_scrape_site doc).Pairwise (fun a b => a.1 ≤ b.1)
    ∧ (∀ i t, (i, t) ∈ doc → 1 ≤ i → i ≤ 6 →
        (i, pyStrip t) ∈ headings_scrape_site doc)
    ∧ (headings_crawl4ai_page doc).Pairwise (fun a b => a.1 ≤ b.1)
    ∧ (∀ p ∈ headings_crawl4ai_page doc, 1 ≤ p.1 ∧ p.1 ≤ 3) := by
  refine ⟨?_, ?_, ?_, ?_⟩
  · rw [headings_scrape_site, List.pairwise_flatten]
    constructor
    · intro l' hl'
      rcases List.mem_map.mp hl' with ⟨i, _, rfl⟩
      exact pairwise_levelBlock doc i
    · rw [List.pairwise_map]
      refine List.Pairwise.imp ?_
        (show headingLevels.Pairwise (fun a b => a ≤ b) by decide)
      intro a b hab x hx y hy
      rw [fst_of_mem_levelBlock hx, fst_of_mem_levelBlock hy]
      exact hab
  · intro i t hmem hlo hhi
    rw [headings_scrape_site, List.mem_flatten]
    refine ⟨(findAllLevel doc i).map (fun u => (i, pyStrip u)), ?_, ?_⟩
    · refine List.mem_map.mpr ⟨i, ?_, rfl⟩
      rw [headingLevels]
      simp only [List.mem_cons, List.not_mem_nil, or_false]
      omega
    · refine List.mem_map.mpr ⟨t, ?_, rfl⟩
      rw [findAllLevel]
      refine List.mem_map.mpr ⟨(i, t), ?_, rfl⟩
      rw [List.mem_filter]
      exact ⟨hmem, by simp⟩
  · rw [headings_crawl4ai_page, headings_crawl4ai, List.pairwise_append]
    refine ⟨pairwise_constBlock _ 1, ?_, ?_⟩
    · rw [List.pairwise_append]
      refine ⟨pairwise_constBlock _ 2, pairwise_constBlock _ 3, ?_⟩
      intro x hx y hy
      rw [fst_of_mem_constBlock hx, fst_of_mem_constBlock hy]
      omega
    · intro x hx y hy
      rw [fst_of_mem_constBlock hx]
      rcases List.mem_append.mp hy with h | h <;>
        (rw [fst_of_mem_constBlock h]; omega)
  · intro p hp
    rw [headings_crawl4ai_page, headings_crawl4ai] at hp
    rcases List.mem_append.mp hp with h | h
    · have hq := fst_of_mem_constBlock h
      omega
    · rcases List.mem_append.mp h with h2 | h2 <;>
        (have hq := fst_of_mem_constBlock h2; omega)

/-- C5 witness: the amended theorem applied to a concrete page whose headings
appear in non-ascending document order. -/
theorem C5_witness :
    (headings_scrape_site [(2, "b".data), (1, "a".data), (4, "d".data)]).Pairwise
      (fun a b => a.1 ≤ b.1)
    ∧ (∀ i t, (i, t) ∈ [(2, "b".data), (1, "a".data), (4, "d".data)] → 1 ≤ i →
        i ≤ 6 →
        (i, pyStrip t) ∈
          headings_scrape_site [(2, "b".data), (1, "a".data), (4, "d".data)])
    ∧ (headings_crawl4ai_page
        [(2, "b".data), (1, "a".data), (4, "d".data)]).Pairwise
      (fun a b => a.1 ≤ b.1)
    ∧ (∀ p ∈ headings_crawl4ai_page [(2, "b".data), (1, "a".data), (4, "d".data)],
        1 ≤ p.1 ∧ p.1 ≤ 3) :=
  C5_headings_order [(2, "b".data), (1, "a".data), (4, "d".data)]
